import Mathlib

/-!
Verification development for the Claw Jobs example agent (`agent.py`).

The agent is a polling task-worker client: it registers an identity,
browses open gigs, applies a capability-keyword matcher, applies to a
gig, checks its applications and submits deliverables for accepted ones.
All network I/O is shallowly embedded: each HTTP call is modelled by the
status code and (typed) body the remote service would answer with, passed
in through an environment record, and each operation is a pure Lean
function of that data.  Response bodies are typed after the remote
interface contract; fields the code reads with `dict.get` (a defaulting
access) are `Option`s, fields it reads with `d[k]` (a throwing access)
are required.
-/

/-- Python string truthiness for an optional string: `None` and `""` are
falsy, every other string is truthy (models `if self.api_key:`,
`if gig_id:`). -/
def pyTruthyStr : Option String → Bool
  | none => false
  | some s => !(s == "")

/-- Boolean test that the first character list is an initial segment of
the second. -/
def charsPre : List Char → List Char → Bool
  | [], _ => true
  | _ :: _, [] => false
  | a :: as, b :: bs => a == b && charsPre as bs

/-- Boolean test that `needle` occurs contiguously inside `hay`
(an empty needle always occurs). -/
def charsSub (needle : List Char) : List Char → Bool
  | [] => needle.isEmpty
  | b :: bs => charsPre needle (b :: bs) || charsSub needle bs

/-- Python's substring operator `needle in hay` on strings. -/
def strIn (needle hay : String) : Bool := charsSub needle.data hay.data

/-- ASCII lowercasing of a string, modelling Python's `str.lower()` on the
ASCII strings this agent handles (written over the character list so it
evaluates by reduction). -/
def lowerStr (s : String) : String := ⟨s.data.map Char.toLower⟩

/-- First `n` characters of a string, modelling Python's `s[:n]` slice
(which counts code points, as the character list does). -/
def takeChars (n : Nat) (s : String) : String := ⟨s.data.take n⟩

/-- The single-quote character, written by code point to keep string
literals plain. -/
def singleQuote : String := String.singleton (Char.ofNat 39)

/-- Python's `str(...)` rendering of a list of strings, e.g.
`str(["a","b"])` is a bracketed, comma-separated list of single-quoted
items (for items without quotes or escapes, which is all this agent
meets).  Models `str(gig_caps)` in `find_matching_gig`. -/
def pyReprList (xs : List String) : String :=
  "[" ++ String.intercalate ", " (xs.map fun s => singleQuote ++ s ++ singleQuote) ++ "]"

/-- A gig as returned by `GET /gigs`.  `title`, `id` and `budget_sats`
are required because `run_once` reads them with throwing access
(`matching_gig['title']` etc.); the fields the matcher reads with
`gig.get(...)` defaults are optional. -/
structure Gig where
  id : String
  title : String
  description : Option String
  category : Option String
  required_capabilities : Option (List String)
  budget_sats : Nat
deriving DecidableEq, Repr

/-- First per-gig test of `find_matching_gig`: some agent capability,
lowercased, occurs in the lowercased category or in the lowercased
Python string rendering of `required_capabilities`. -/
def gigMatches1 (caps : List String) (g : Gig) : Bool :=
  let gig_category := lowerStr (g.category.getD "")
  let gig_caps := g.required_capabilities.getD []
  caps.any fun cap =>
    strIn (lowerStr cap) gig_category || strIn (lowerStr cap) (lowerStr (pyReprList gig_caps))

/-- Second per-gig test of `find_matching_gig`: some agent capability,
lowercased, occurs in `lowercase(title ++ " " ++ description)`. -/
def gigMatches2 (caps : List String) (g : Gig) : Bool :=
  let gig_text := lowerStr (g.title ++ " " ++ g.description.getD "")
  caps.any fun cap => strIn (lowerStr cap) gig_text

/-- The scanning loop of `find_matching_gig`: one pass over the gigs in
order; for each gig the category/required-capabilities test runs first,
then the title/description test; the first gig passing either test is
returned. -/
def findLoop (caps : List String) : List Gig → Option Gig
  | [] => none
  | g :: rest =>
    if gigMatches1 caps g then some g
    else if gigMatches2 caps g then some g
    else findLoop caps rest

/-- `find_matching_gig`: the scanning loop, then the unconditional
fallback `gigs[0] if gigs else None`. -/
def find_matching_gig (caps : List String) (gigs : List Gig) : Option Gig :=
  match findLoop caps gigs with
  | some g => some g
  | none => gigs.head?

/-- The agent's in-memory state: `name`, `capabilities`, and the
possibly-absent `api_key` / `user_id` loaded from the credential store. -/
structure AgentState where
  name : String
  capabilities : List String
  api_key : Option String
  user_id : Option String
deriving DecidableEq, Repr

/-- `_headers`: always `Content-Type`; the `x-api-key` entry is added
exactly when `self.api_key` is truthy. -/
def headersFor (s : AgentState) : List (String × String) :=
  if pyTruthyStr s.api_key then
    [("Content-Type", "application/json"), ("x-api-key", s.api_key.getD "")]
  else
    [("Content-Type", "application/json")]

/-- Body of a successful `POST /auth/register` answer, typed after the
remote interface contract (`data['api_key']`, `data['user']['id']`). -/
structure RegResponse where
  status : Nat
  api_key : String
  user_id : String
deriving DecidableEq, Repr

/-- Observable outcome of `register`: the returned boolean, the agent
state afterwards, how many registration network calls were made, and the
contents written to the credential store (`none` when `_save_state` did
not run). -/
structure RegResult where
  success : Bool
  state : AgentState
  networkCalls : Nat
  savedState : Option AgentState
deriving DecidableEq, Repr

/-- `register`: early-returns `True` without any network call when
`self.api_key` is truthy; otherwise one `POST /auth/register`, and on a
201 the key and user id are stored and persisted, on anything else the
state is untouched and `False` is returned. -/
def register (s : AgentState) (resp : RegResponse) : RegResult :=
  if pyTruthyStr s.api_key then
    ⟨true, s, 0, none⟩
  else if resp.status = 201 then
    let s2 : AgentState :=
      { s with api_key := some resp.api_key, user_id := some resp.user_id }
    ⟨true, s2, 1, some s2⟩
  else
    ⟨false, s, 1, none⟩

/-- `browse_gigs`: the gig list on a 200, the empty list (after logging)
on every other status. -/
def browse_gigs (status_code : Nat) (body : List Gig) : List Gig :=
  if status_code = 200 then body else []

/-- The `application` object inside a successful apply answer
(`data['application']['gig_title']` is a throwing access, so the field is
required). -/
structure ApplyApplication where
  gig_title : String
deriving DecidableEq, Repr

/-- Body of a successful `POST /gigs/{id}/apply` answer. -/
structure ApplyBody where
  application : ApplyApplication
deriving DecidableEq, Repr

/-- `apply_to_gig`: the parsed body on a 201, `None` (after a skip
message) on a 409, `None` (after an error message) on everything else.
Totality of this function models that no branch raises. -/
def apply_to_gig (status_code : Nat) (body : ApplyBody) : Option ApplyBody :=
  if status_code = 201 then some body
  else if status_code = 409 then none
  else none

/-- The gig snapshot embedded in an application; `check_applications` and
`run_once` read all of its fields with `gig.get(...)`, so each one is
optional. -/
structure AppGig where
  id : Option String
  title : Option String
  description : Option String
deriving DecidableEq, Repr

/-- One application record; `app['status']` is a throwing access
(required), `app.get('gig', {})` a defaulting one (optional). -/
structure Application where
  status : String
  gig : Option AppGig
deriving DecidableEq, Repr

/-- Body of a `GET /applications` answer: `data.get('applications', [])`
and the three `stats.get(...)` counters that are only logged. -/
structure AppsBody where
  applications : Option (List Application)
  statsTotal : Option Nat
  statsAccepted : Option Nat
  statsPending : Option Nat
deriving DecidableEq, Repr

/-- `check_applications`: the (defaulted) application list on a 200, the
empty list (after logging) on every other status. -/
def check_applications (status_code : Nat) (body : AppsBody) : List Application :=
  if status_code = 200 then body.applications.getD [] else []

/-- `submit_deliverable`: `True` exactly when the status is in the list
`[200, 201]`, `False` (after logging) otherwise. -/
def submit_deliverable (status_code : Nat) : Bool :=
  if [200, 201].contains status_code then true else false

/-- `do_work`: the deliverable text built from the gig's (defaulted)
title and the first 200 characters of its description; the 2-second
simulated-work sleep has no observable effect and is not modelled. -/
def do_work (agentName : String) (caps : List String) (g : AppGig) : String :=
  let title := g.title.getD "Unknown gig"
  let description := g.description.getD ""
  "\n# Deliverable for: " ++ title ++
  "\n\n## Summary\nThis is an example deliverable from the Claw Jobs example agent." ++
  "\n\n## Work Completed\nBased on the gig requirements:\n" ++ takeChars 200 description ++
  "...\n\nI have completed the requested work. In a real agent, this would contain:" ++
  "\n- Actual research findings\n- Generated content\n- Data analysis results" ++
  "\n- Or whatever the gig required\n\n## Notes\n- Completed by: " ++ agentName ++
  "\n- Capabilities used: " ++ String.intercalate ", " caps ++
  "\n\nThank you for using Claw Jobs! ⚡\n"

/-- The routes of the remote service that the agent calls, as structured
values; `pathString` gives the URL path each one denotes. -/
inductive ApiPath where
  | gigs
  | gigApply (gigId : String)
  | applications
  | deliverables
  | authRegister
deriving DecidableEq, Repr

/-- URL path (relative to the base URL) of each route. -/
def pathString : ApiPath → String
  | .gigs => "/gigs"
  | .gigApply gid => "/gigs/" ++ gid ++ "/apply"
  | .applications => "/applications"
  | .deliverables => "/deliverables"
  | .authRegister => "/auth/register"

/-- One HTTP request as issued by the agent. -/
structure Request where
  method : String
  path : ApiPath
  headers : List (String × String)
deriving DecidableEq, Repr

/-- The answers the remote service gives during one cycle: a status and
body per endpoint, with the deliverable status indexed by gig id. -/
structure Env where
  gigsStatus : Nat
  gigsBody : List Gig
  applyStatus : Nat
  applyBody : ApplyBody
  appsStatus : Nat
  appsBody : AppsBody
  submitStatus : String → Nat

/-- Everything observable about one `run_once` cycle: the requests
issued (in order), the browsed gigs, whether the empty-gigs early return
fired, the apply call's result (`none` when no apply call happened),
whether applications were checked, the application list, and the
submissions made (gig id, deliverable content, submit result). -/
structure CycleResult where
  requests : List Request
  gigs : List Gig
  earlyReturn : Bool
  appliedResult : Option (Option ApplyBody)
  checkedApps : Bool
  apps : List Application
  submissions : List (String × String × Bool)

/-- The accepted-applications loop at the end of `run_once`: for each
application with status `accepted` whose embedded gig has a truthy id,
do the work and POST one deliverable.  Returns the submissions and the
requests they issued, in application order. -/
def fulfill (s : AgentState) (env : Env) : List Application → List (String × String × Bool) × List Request
  | [] => ([], [])
  | app :: rest =>
    let tail := fulfill s env rest
    let gig := app.gig.getD ⟨none, none, none⟩
    if app.status == "accepted" && pyTruthyStr gig.id then
      let gid := gig.id.getD ""
      let content := do_work s.name s.capabilities gig
      let ok := submit_deliverable (env.submitStatus gid)
      ((gid, content, ok) :: tail.1, ⟨"POST", ApiPath.deliverables, headersFor s⟩ :: tail.2)
    else tail

/-- `run_once`: browse open gigs; if none, log and return early;
otherwise find a matching gig, apply to it (best effort), check
applications, and fulfill every accepted one. -/
def run_once (s : AgentState) (env : Env) : CycleResult :=
  let gigsReq : Request := ⟨"GET", ApiPath.gigs, headersFor s⟩
  let gigs := browse_gigs env.gigsStatus env.gigsBody
  if gigs.isEmpty then
    { requests := [gigsReq], gigs := gigs, earlyReturn := true,
      appliedResult := none, checkedApps := false, apps := [], submissions := [] }
  else
    let matched := find_matching_gig s.capabilities gigs
    let applied : Option (Option ApplyBody) × List Request :=
      match matched with
      | some g => (some (apply_to_gig env.applyStatus env.applyBody),
                   [⟨"POST", ApiPath.gigApply g.id, headersFor s⟩])
      | none => (none, [])
    let appsReq : Request := ⟨"GET", ApiPath.applications, headersFor s⟩
    let apps := check_applications env.appsStatus env.appsBody
    let subs := fulfill s env apps
    { requests := [gigsReq] ++ applied.2 ++ [appsReq] ++ subs.2,
      gigs := gigs, earlyReturn := false, appliedResult := applied.1,
      checkedApps := true, apps := apps, submissions := subs.1 }

/-- What one scheduled iteration of the continuous loop meets: either its
`run_once` call completes against some environment, or it raises with a
message (exceptions originate in the unmodelled transport layer, so they
are abstract here). -/
inductive CycleOutcome where
  | completes (env : Env)
  | raises (msg : String)

/-- Record of one loop iteration: the exception caught by the
`try/except` (if any) and the length of the sleep that follows. -/
structure LoopIterRecord where
  raised : Option String
  sleptSeconds : Nat
deriving DecidableEq, Repr

/-- One iteration of the `while True` body of `run_loop`: run the cycle
under `try`, catching and logging any exception, then sleep the
configured interval.  Returns the iteration record and the cycle result
when the cycle completed. -/
def run_loop_iter (s : AgentState) (interval : Nat) :
    CycleOutcome → LoopIterRecord × Option CycleResult
  | .completes env => (⟨none, interval⟩, some (run_once s env))
  | .raises e => (⟨some e, interval⟩, none)

/-- `run_loop`, observed over an arbitrary finite prefix of scheduled
cycle outcomes: the loop body runs once per scheduled cycle,
unconditionally. -/
def run_loop_trace (s : AgentState) (interval : Nat)
    (outcomes : List CycleOutcome) : List (LoopIterRecord × Option CycleResult) :=
  outcomes.map (run_loop_iter s interval)

/-- Number of applications in the list whose status is `accepted`. -/
def acceptedCount (apps : List Application) : Nat :=
  (apps.filter fun a => a.status == "accepted").length

/-- The applications that the fulfillment loop actually submits for:
status `accepted` and a truthy embedded gig id. -/
def fulfillable (apps : List Application) : List Application :=
  apps.filter fun a => a.status == "accepted" && pyTruthyStr ((a.gig.getD ⟨none, none, none⟩).id)

/-! ## Lemmas about the matcher -/

/-- The scanning loop is the first-match search for the disjunction of the
two per-gig tests. -/
lemma findLoop_eq_findFirst (caps : List String) (gigs : List Gig) :
    findLoop caps gigs = gigs.find? (fun g => gigMatches1 caps g || gigMatches2 caps g) := by
  induction gigs with
  | nil => rfl
  | cons g rest ih =>
    by_cases h1 : gigMatches1 caps g
    · simp [findLoop, h1, List.find?]
    · by_cases h2 : gigMatches2 caps g
      · simp [findLoop, h1, h2, List.find?]
      · simp [findLoop, h1, h2, List.find?, ih]

/-- When no gig passes either test the scanning loop finds nothing. -/
lemma findLoop_none_of_no_match (caps : List String) :
    ∀ gigs : List Gig,
      (∀ g ∈ gigs, gigMatches1 caps g = false ∧ gigMatches2 caps g = false) →
      findLoop caps gigs = none := by
  intro gigs
  induction gigs with
  | nil => intro _; rfl
  | cons g rest ih =>
    intro h
    have hg := h g (by simp)
    have hrest := ih fun g' hg' => h g' (by simp [hg'])
    simp [findLoop, hg.1, hg.2, hrest]

/-- On a non-empty gig list the matcher always selects some gig (the
unconditional fallback guarantees it). -/
lemma find_matching_gig_isSome (caps : List String) (gigs : List Gig)
    (h : gigs ≠ []) : (find_matching_gig caps gigs).isSome = true := by
  unfold find_matching_gig
  cases hf : findLoop caps gigs with
  | some g => rfl
  | none =>
    cases gigs with
    | nil => exact absurd rfl h
    | cons g rest => rfl

/-! ## C1 -/

/-- C1 (corrected): the matcher is a single in-order scan; each gig is
tested on category/required-capabilities and then on title/description,
and the first gig passing either test is selected (with the first-gig
fallback when none passes).  Priority of category/required-capabilities
over text holds only within one gig, not across the list. -/
theorem C1_matcher_single_pass (caps : List String) (gigs : List Gig) :
    find_matching_gig caps gigs =
      match gigs.find? (fun g => gigMatches1 caps g || gigMatches2 caps g) with
      | some g => some g
      | none => gigs.head? := by
  unfold find_matching_gig
  rw [findLoop_eq_findFirst]

/-- C1 counterexample: with capability `writing`, the first gig matches
only on its title text and the second matches on its category, yet the
matcher returns the first gig — a category/required-capabilities match is
not preferred over an earlier text-only match. -/
theorem C1_counterexample :
    gigMatches1 ["writing"] ⟨"g1", "writing tasks", none, some "misc", some [], 5⟩ = false ∧
    gigMatches2 ["writing"] ⟨"g1", "writing tasks", none, some "misc", some [], 5⟩ = true ∧
    gigMatches1 ["writing"] ⟨"g2", "t2", none, some "writing", none, 5⟩ = true ∧
    find_matching_gig ["writing"]
      [⟨"g1", "writing tasks", none, some "misc", some [], 5⟩,
       ⟨"g2", "t2", none, some "writing", none, 5⟩] =
      some ⟨"g1", "writing tasks", none, some "misc", some [], 5⟩ := by
  decide

/-! ## C7 -/

/-- C7 (confirmed): the matcher is deterministic in its two inputs; on an
empty list it returns none; and when no capability matches any gig's
category, required-capabilities, title or description, it returns the
first gig of the list. -/
theorem C7_matcher_determinism_and_fallback (caps : List String) (gigs : List Gig) :
    (∀ caps2 gigs2, caps2 = caps → gigs2 = gigs →
        find_matching_gig caps2 gigs2 = find_matching_gig caps gigs) ∧
    (gigs = [] → find_matching_gig caps gigs = none) ∧
    ((∀ g ∈ gigs, gigMatches1 caps g = false ∧ gigMatches2 caps g = false) →
        find_matching_gig caps gigs = gigs.head?) := by
  refine ⟨fun caps2 gigs2 h1 h2 => by rw [h1, h2], ?_, ?_⟩
  · intro h; subst h; rfl
  · intro h
    unfold find_matching_gig
    rw [findLoop_none_of_no_match caps gigs h]

/-- Witness for C7 at concrete inputs: a no-match single-gig list yields
its first gig, and the empty list yields none. -/
theorem C7_witness :
    find_matching_gig ["research"] [] = none ∧
    find_matching_gig ["research"]
      [⟨"g0", "nothing here", none, some "misc", some [], 1⟩] =
      some ⟨"g0", "nothing here", none, some "misc", some [], 1⟩ := by
  constructor
  · exact (C7_matcher_determinism_and_fallback ["research"] []).2.1 rfl
  · exact (C7_matcher_determinism_and_fallback ["research"]
      [⟨"g0", "nothing here", none, some "misc", some [], 1⟩]).2.2 (by decide)

/-! ## C10 -/

/-- C10 (confirmed): `apply_to_gig` is total (no status makes it raise)
and collapses 409 with every other non-201 status to `none`; only a 201
yields a value. -/
theorem C10_apply_status_collapse (status_code : Nat) (body : ApplyBody) :
    apply_to_gig status_code body =
      (if status_code = 201 then some body else none) := by
  unfold apply_to_gig
  by_cases h : status_code = 201
  · simp [h]
  · by_cases h9 : status_code = 409 <;> simp [h, h9]

/-! ## Lemmas about one cycle -/

/-- The requests issued by the fulfillment loop are exactly one
deliverable POST per submission it makes. -/
lemma fulfill_reqs_eq (s : AgentState) (env : Env) :
    ∀ apps : List Application,
      (fulfill s env apps).2 =
        (fulfill s env apps).1.map
          fun _ => (⟨"POST", ApiPath.deliverables, headersFor s⟩ : Request) := by
  intro apps
  induction apps with
  | nil => rfl
  | cons a rest ih =>
    by_cases hc :
        (a.status == "accepted" && pyTruthyStr ((a.gig.getD ⟨none, none, none⟩).id)) = true
    · simp [fulfill, hc, ih]
    · simp [fulfill, hc, ih]

/-- The fulfillment loop makes one submission per accepted application
with a truthy embedded gig id. -/
lemma fulfill_length (s : AgentState) (env : Env) :
    ∀ apps : List Application,
      (fulfill s env apps).1.length = (fulfillable apps).length := by
  intro apps
  induction apps with
  | nil => rfl
  | cons a rest ih =>
    by_cases hc :
        (a.status == "accepted" && pyTruthyStr ((a.gig.getD ⟨none, none, none⟩).id)) = true
    · simp [fulfill, fulfillable, List.filter_cons, hc, ih]
    · simp [fulfill, fulfillable, List.filter_cons, hc]
      simpa [fulfillable] using ih

/-- The gig ids submitted for are, in order, those of the accepted
applications with a truthy embedded gig id. -/
lemma fulfill_ids (s : AgentState) (env : Env) :
    ∀ apps : List Application,
      (fulfill s env apps).1.map (fun t => t.1) =
        (fulfillable apps).map (fun a => (a.gig.getD ⟨none, none, none⟩).id.getD "") := by
  intro apps
  induction apps with
  | nil => rfl
  | cons a rest ih =>
    by_cases hc :
        (a.status == "accepted" && pyTruthyStr ((a.gig.getD ⟨none, none, none⟩).id)) = true
    · simp [fulfill, fulfillable, List.filter_cons, hc, ih]
    · simp [fulfill, fulfillable, List.filter_cons, hc]
      simpa [fulfillable] using ih

/-- `run_once` when the browsed gig list is empty: one GET, early
return, no application check, no submissions. -/
lemma run_once_empty (s : AgentState) (env : Env)
    (he : (browse_gigs env.gigsStatus env.gigsBody).isEmpty = true) :
    run_once s env =
      { requests := [⟨"GET", ApiPath.gigs, headersFor s⟩],
        gigs := browse_gigs env.gigsStatus env.gigsBody,
        earlyReturn := true, appliedResult := none,
        checkedApps := false, apps := [], submissions := [] } := by
  unfold run_once
  rw [if_pos he]

/-- `run_once` when the browsed gig list is non-empty and the matcher
selected `g`: browse, apply to `g`, check applications, fulfill each
accepted one. -/
lemma run_once_nonempty (s : AgentState) (env : Env) (g : Gig)
    (he : (browse_gigs env.gigsStatus env.gigsBody).isEmpty = false)
    (hm : find_matching_gig s.capabilities (browse_gigs env.gigsStatus env.gigsBody) = some g) :
    run_once s env =
      { requests := [⟨"GET", ApiPath.gigs, headersFor s⟩,
                     ⟨"POST", ApiPath.gigApply g.id, headersFor s⟩,
                     ⟨"GET", ApiPath.applications, headersFor s⟩] ++
                    (fulfill s env (check_applications env.appsStatus env.appsBody)).2,
        gigs := browse_gigs env.gigsStatus env.gigsBody,
        earlyReturn := false,
        appliedResult := some (apply_to_gig env.applyStatus env.applyBody),
        checkedApps := true,
        apps := check_applications env.appsStatus env.appsBody,
        submissions := (fulfill s env (check_applications env.appsStatus env.appsBody)).1 } := by
  unfold run_once
  rw [if_neg (by simp [he]), hm]
  simp

/-! ## C4 -/

/-- A request that POSTs a deliverable. -/
def isDeliverableReq (r : Request) : Bool :=
  r.method == "POST" &&
    (match r.path with
     | ApiPath.deliverables => true
     | _ => false)

/-- C4 counterexample: 204 is a 2xx status, yet `submit_deliverable`
returns `false` on it — success is not "any 2xx". -/
theorem C4_counterexample :
    (200 ≤ 204 ∧ 204 < 300) ∧ submit_deliverable 204 = false := by
  decide

/-- C4 (corrected): `submit_deliverable` returns `true` exactly on the
statuses 200 and 201 (not on every 2xx), `false` otherwise, and within a
cycle exactly one deliverable POST is issued per submission — there is no
retry. -/
theorem C4_submit_success_codes :
    (∀ status_code : Nat,
        submit_deliverable status_code = true ↔ (status_code = 200 ∨ status_code = 201)) ∧
    (∀ (s : AgentState) (env : Env),
        ((run_once s env).requests.filter isDeliverableReq).length =
          (run_once s env).submissions.length) := by
  constructor
  · intro status_code
    simp [submit_deliverable]
  · intro s env
    by_cases he : (browse_gigs env.gigsStatus env.gigsBody).isEmpty = true
    · rw [run_once_empty s env he]
      simp [isDeliverableReq]
    · have hne : browse_gigs env.gigsStatus env.gigsBody ≠ [] := by
        intro hcon
        rw [hcon] at he
        exact he rfl
      obtain ⟨g, hg⟩ := Option.isSome_iff_exists.mp
        (find_matching_gig_isSome s.capabilities _ hne)
      rw [run_once_nonempty s env g (by simpa using he) hg]
      rw [fulfill_reqs_eq]
      simp [isDeliverableReq, List.filter_append, List.filter_map]

/-- Witness for C4 at concrete statuses: 200 succeeds, 500 fails. -/
theorem C4_witness :
    submit_deliverable 200 = true ∧ submit_deliverable 500 ≠ true := by
  constructor
  · exact (C4_submit_success_codes.1 200).mpr (Or.inl rfl)
  · intro h
    rcases (C4_submit_success_codes.1 500).mp h with h5 | h5 <;> simp at h5

/-! ## C6 -/

/-- C6 (confirmed): with a truthy stored token, `register` makes zero
registration network calls, reports success, leaves the identity
(`api_key`, `user_id`, `name`) unchanged, and writes nothing to the
credential store. -/
theorem C6_registration_idempotent (s : AgentState) (resp : RegResponse)
    (h : pyTruthyStr s.api_key = true) :
    register s resp = ⟨true, s, 0, none⟩ := by
  unfold register
  rw [if_pos h]

/-- Witness for C6: a concrete populated state is returned untouched,
with zero network calls, whatever the network would have answered. -/
theorem C6_witness :
    register ⟨"ExampleAgent-abcd", ["research"], some "clawk_key", some "u1"⟩ ⟨500, "", ""⟩ =
      ⟨true, ⟨"ExampleAgent-abcd", ["research"], some "clawk_key", some "u1"⟩, 0, none⟩ :=
  C6_registration_idempotent _ _ (by decide)

/-! ## C2 -/

/-- C2 (corrected): a non-success task-listing status yields the empty
gig list without raising, but then `run_once` returns early: checking
applications and fulfilling accepted ones are skipped in that cycle. -/
theorem C2_listing_failure_early_return (s : AgentState) (env : Env)
    (h : env.gigsStatus ≠ 200) :
    browse_gigs env.gigsStatus env.gigsBody = [] ∧
    (run_once s env).earlyReturn = true ∧
    (run_once s env).checkedApps = false ∧
    (run_once s env).submissions = [] := by
  have hb : browse_gigs env.gigsStatus env.gigsBody = [] := by
    unfold browse_gigs
    rw [if_neg h]
  have he : (browse_gigs env.gigsStatus env.gigsBody).isEmpty = true := by
    rw [hb]; rfl
  rw [run_once_empty s env he]
  exact ⟨hb, rfl, rfl, rfl⟩

/-- A cycle environment whose gig listing fails with a 503 while an
accepted application is waiting. -/
def envC2 : Env :=
  ⟨503, [⟨"g1", "find data", none, some "research", none, 10⟩], 201, ⟨⟨"t"⟩⟩, 200,
   ⟨some [⟨"accepted", some ⟨some "g1", some "find data", none⟩⟩], some 1, some 1, some 0⟩,
   fun _ => 200⟩

/-- C2 counterexample: under `envC2` the listing call fails, and the
cycle does not run its remaining steps — applications (one of which is
accepted) are never checked and nothing is submitted, contrary to the
claim that the remainder of the cycle still runs. -/
theorem C2_counterexample :
    envC2.gigsStatus = 503 ∧
    envC2.appsBody.applications =
      some [⟨"accepted", some ⟨some "g1", some "find data", none⟩⟩] ∧
    (run_once ⟨"A", ["research"], some "K", some "U"⟩ envC2).checkedApps = false ∧
    (run_once ⟨"A", ["research"], some "K", some "U"⟩ envC2).submissions = [] := by
  refine ⟨rfl, rfl, ?_, ?_⟩ <;> decide

/-- Witness for C2 (amended) at the concrete environment `envC2`. -/
theorem C2_witness :
    browse_gigs envC2.gigsStatus envC2.gigsBody = [] ∧
    (run_once ⟨"A", ["research"], some "K", some "U"⟩ envC2).earlyReturn = true ∧
    (run_once ⟨"A", ["research"], some "K", some "U"⟩ envC2).checkedApps = false ∧
    (run_once ⟨"A", ["research"], some "K", some "U"⟩ envC2).submissions = [] :=
  C2_listing_failure_early_return ⟨"A", ["research"], some "K", some "U"⟩ envC2 (by decide)

/-! ## C5 -/

/-- C5 (confirmed): a 409 from the apply endpoint is absorbed —
`apply_to_gig` returns `None` without raising (it is total), and the
cycle still goes on to check applications. -/
theorem C5_conflict_absorbed (s : AgentState) (env : Env)
    (hg : env.gigsStatus = 200) (hne : env.gigsBody ≠ [])
    (h409 : env.applyStatus = 409) :
    apply_to_gig env.applyStatus env.applyBody = none ∧
    (run_once s env).appliedResult = some none ∧
    (run_once s env).checkedApps = true := by
  have hnone : apply_to_gig env.applyStatus env.applyBody = none := by
    simp [apply_to_gig, h409]
  have hbrowse : browse_gigs env.gigsStatus env.gigsBody = env.gigsBody := by
    unfold browse_gigs
    rw [if_pos hg]
  have hne2 : browse_gigs env.gigsStatus env.gigsBody ≠ [] := by
    rw [hbrowse]; exact hne
  have he : (browse_gigs env.gigsStatus env.gigsBody).isEmpty = false := by
    cases hcase : browse_gigs env.gigsStatus env.gigsBody with
    | nil => exact absurd hcase hne2
    | cons a l => rfl
  obtain ⟨g, hg2⟩ := Option.isSome_iff_exists.mp
    (find_matching_gig_isSome s.capabilities _ hne2)
  rw [run_once_nonempty s env g he hg2]
  exact ⟨hnone, by rw [hnone], rfl⟩

/-- A cycle environment whose apply call answers 409 (already applied). -/
def envC5 : Env :=
  ⟨200, [⟨"g1", "research task", none, some "research", none, 10⟩], 409, ⟨⟨"t"⟩⟩, 200,
   ⟨some [], some 0, some 0, some 0⟩, fun _ => 200⟩

/-- Witness for C5: under `envC5` the conflict is absorbed and the cycle
reaches the application check. -/
theorem C5_witness :
    apply_to_gig envC5.applyStatus envC5.applyBody = none ∧
    (run_once ⟨"A", ["research"], some "K", some "U"⟩ envC5).appliedResult = some none ∧
    (run_once ⟨"A", ["research"], some "K", some "U"⟩ envC5).checkedApps = true :=
  C5_conflict_absorbed ⟨"A", ["research"], some "K", some "U"⟩ envC5 rfl (by decide) rfl

/-! ## C3 -/

/-- C3 (corrected): when the cycle reaches the fulfillment step, it
submits exactly one deliverable per accepted application whose embedded
gig snapshot has a truthy id, in order, for that gig's id — accepted
applications without a gig id are skipped. -/
theorem C3_accepted_fulfillment (s : AgentState) (env : Env)
    (hg : env.gigsStatus = 200) (hne : env.gigsBody ≠ [])
    (ha : env.appsStatus = 200) :
    (run_once s env).apps = env.appsBody.applications.getD [] ∧
    (run_once s env).submissions.length = (fulfillable ((run_once s env).apps)).length ∧
    (run_once s env).submissions.map (fun t => t.1) =
      (fulfillable ((run_once s env).apps)).map
        (fun a => (a.gig.getD ⟨none, none, none⟩).id.getD "") := by
  have hbrowse : browse_gigs env.gigsStatus env.gigsBody = env.gigsBody := by
    unfold browse_gigs
    rw [if_pos hg]
  have hne2 : browse_gigs env.gigsStatus env.gigsBody ≠ [] := by
    rw [hbrowse]; exact hne
  have he : (browse_gigs env.gigsStatus env.gigsBody).isEmpty = false := by
    cases hcase : browse_gigs env.gigsStatus env.gigsBody with
    | nil => exact absurd hcase hne2
    | cons a l => rfl
  obtain ⟨g, hg2⟩ := Option.isSome_iff_exists.mp
    (find_matching_gig_isSome s.capabilities _ hne2)
  rw [run_once_nonempty s env g he hg2]
  have happs : check_applications env.appsStatus env.appsBody =
      env.appsBody.applications.getD [] := by
    unfold check_applications
    rw [if_pos ha]
  exact ⟨happs, by rw [fulfill_length], by rw [fulfill_ids]⟩

/-- A cycle environment whose applications listing returns one accepted
application among one total, whose embedded gig snapshot is absent. -/
def envC3 : Env :=
  ⟨200, [⟨"g1", "research task", none, some "research", none, 10⟩], 201, ⟨⟨"t"⟩⟩, 200,
   ⟨some [⟨"accepted", none⟩], some 1, some 1, some 0⟩, fun _ => 200⟩

/-- C3 counterexample: under `envC3` the applications listing returns
N = 1 accepted application among M = 1 total, yet zero deliverables are
submitted in the cycle (the accepted application has no embedded gig
id), so "exactly N deliverables" fails. -/
theorem C3_counterexample :
    acceptedCount (run_once ⟨"A", ["research"], some "K", some "U"⟩ envC3).apps = 1 ∧
    ((run_once ⟨"A", ["research"], some "K", some "U"⟩ envC3).apps).length = 1 ∧
    (run_once ⟨"A", ["research"], some "K", some "U"⟩ envC3).submissions.length = 0 := by
  refine ⟨?_, ?_, ?_⟩ <;> decide

/-- A cycle environment with one accepted application carrying a gig id
and one pending application. -/
def envC3w : Env :=
  ⟨200, [⟨"g1", "research task", none, some "research", none, 10⟩], 201, ⟨⟨"t"⟩⟩, 200,
   ⟨some [⟨"accepted", some ⟨some "g7", some "t7", none⟩⟩,
          ⟨"pending", some ⟨some "g8", none, none⟩⟩],
    some 2, some 1, some 1⟩, fun _ => 200⟩

/-- Witness for C3 (amended) at the concrete environment `envC3w`. -/
theorem C3_witness :
    (run_once ⟨"A", ["research"], some "K", some "U"⟩ envC3w).apps =
      envC3w.appsBody.applications.getD [] ∧
    (run_once ⟨"A", ["research"], some "K", some "U"⟩ envC3w).submissions.length =
      (fulfillable ((run_once ⟨"A", ["research"], some "K", some "U"⟩ envC3w).apps)).length ∧
    (run_once ⟨"A", ["research"], some "K", some "U"⟩ envC3w).submissions.map (fun t => t.1) =
      (fulfillable ((run_once ⟨"A", ["research"], some "K", some "U"⟩ envC3w).apps)).map
        (fun a => (a.gig.getD ⟨none, none, none⟩).id.getD "") :=
  C3_accepted_fulfillment ⟨"A", ["research"], some "K", some "U"⟩ envC3w rfl (by decide) rfl

/-! ## C8 -/

/-- With a truthy stored key the headers are exactly `Content-Type`
followed by the `x-api-key` entry. -/
lemma headersFor_truthy (s : AgentState) (k : String)
    (hk : s.api_key = some k) (hne : k ≠ "") :
    headersFor s = [("Content-Type", "application/json"), ("x-api-key", k)] := by
  unfold headersFor
  rw [hk]
  simp [pyTruthyStr, hne]

/-- Every request issued by `run_once` carries exactly the agent's
headers. -/
lemma run_once_mem_headers (s : AgentState) (env : Env) :
    ∀ r ∈ (run_once s env).requests, r.headers = headersFor s := by
  intro r hr
  by_cases he : (browse_gigs env.gigsStatus env.gigsBody).isEmpty = true
  · rw [run_once_empty s env he] at hr
    simp at hr
    rw [hr]
  · have hne2 : browse_gigs env.gigsStatus env.gigsBody ≠ [] := by
      intro hcon
      rw [hcon] at he
      exact he rfl
    obtain ⟨g, hg2⟩ := Option.isSome_iff_exists.mp
      (find_matching_gig_isSome s.capabilities _ hne2)
    rw [run_once_nonempty s env g (by simpa using he) hg2] at hr
    rw [fulfill_reqs_eq] at hr
    simp only [List.cons_append, List.nil_append, List.mem_cons, List.mem_map] at hr
    rcases hr with h | h | h | h
    · rw [h]
    · rw [h]
    · rw [h]
    · obtain ⟨x, _, hx⟩ := h
      rw [← hx]

/-- C8 (confirmed): once the api key is present (truthy), every request
issued by a cycle carries the `x-api-key` header with that key, and
`register` — the only operation that ever writes the key — leaves the
state, and in particular the key, unchanged. -/
theorem C8_api_key_carried_and_stable (s : AgentState) (env : Env)
    (resp : RegResponse) (k : String)
    (hk : s.api_key = some k) (hne : k ≠ "") :
    ((run_once s env).requests.all fun r => r.headers.contains ("x-api-key", k)) = true ∧
    (register s resp).state = s ∧
    (register s resp).state.api_key = some k := by
  have hh := headersFor_truthy s k hk hne
  have htruthy : pyTruthyStr s.api_key = true := by
    rw [hk]
    simp [pyTruthyStr, hne]
  have hreg : register s resp = ⟨true, s, 0, none⟩ := by
    unfold register
    rw [if_pos htruthy]
  refine ⟨?_, by rw [hreg], by rw [hreg]; exact hk⟩
  rw [List.all_eq_true]
  intro r hr
  rw [run_once_mem_headers s env r hr, hh]
  simp

/-- A cycle environment with an open gig and an accepted application, so
that a cycle issues all four kinds of request. -/
def envC8 : Env :=
  ⟨200, [⟨"g1", "research task", none, some "research", none, 10⟩], 201, ⟨⟨"research task"⟩⟩, 200,
   ⟨some [⟨"accepted", some ⟨some "g1", some "research task", some "dig into it"⟩⟩],
    some 1, some 1, some 0⟩, fun _ => 201⟩

/-- Witness for C8 at a concrete populated state: every request of the
cycle carries the stored key and registration leaves it in place. -/
theorem C8_witness :
    ((run_once ⟨"A", ["research"], some "K", some "U"⟩ envC8).requests.all
        fun r => r.headers.contains ("x-api-key", "K")) = true ∧
    (register ⟨"A", ["research"], some "K", some "U"⟩ ⟨201, "fresh", "u9"⟩).state =
      ⟨"A", ["research"], some "K", some "U"⟩ ∧
    (register ⟨"A", ["research"], some "K", some "U"⟩ ⟨201, "fresh", "u9"⟩).state.api_key =
      some "K" :=
  C8_api_key_carried_and_stable ⟨"A", ["research"], some "K", some "U"⟩ envC8
    ⟨201, "fresh", "u9"⟩ "K" rfl (by decide)

/-! ## C9 -/

/-- C9 (confirmed): the continuous loop runs its body once per scheduled
cycle — the trace has one iteration per outcome, and the iteration at any
index is the handled form of that index's outcome (exception caught and
recorded, then the configured sleep), regardless of what any earlier
cycle did.  An exception in one cycle therefore never prevents a later
scheduled cycle from running. -/
theorem C9_loop_resilience (s : AgentState) (interval : Nat)
    (outcomes : List CycleOutcome) :
    (run_loop_trace s interval outcomes).length = outcomes.length ∧
    (∀ (i : Nat) (c : CycleOutcome), outcomes[i]? = some c →
      (run_loop_trace s interval outcomes)[i]? = some (run_loop_iter s interval c)) := by
  constructor
  · simp [run_loop_trace]
  · intro i c h
    simp [run_loop_trace, List.getElem?_map, h]

/-- Witness for C9: after a first cycle that raises, the second scheduled
cycle still runs (and completes against its environment), with the
configured 300-second sleep recorded for the raising iteration. -/
theorem C9_witness :
    (run_loop_trace ⟨"A", ["research"], some "K", some "U"⟩ 300
        [CycleOutcome.raises "boom", CycleOutcome.completes envC8]).length = 2 ∧
    (run_loop_trace ⟨"A", ["research"], some "K", some "U"⟩ 300
        [CycleOutcome.raises "boom", CycleOutcome.completes envC8])[0]? =
      some (run_loop_iter ⟨"A", ["research"], some "K", some "U"⟩ 300
        (CycleOutcome.raises "boom")) ∧
    (run_loop_trace ⟨"A", ["research"], some "K", some "U"⟩ 300
        [CycleOutcome.raises "boom", CycleOutcome.completes envC8])[1]? =
      some (run_loop_iter ⟨"A", ["research"], some "K", some "U"⟩ 300
        (CycleOutcome.completes envC8)) :=
  ⟨(C9_loop_resilience ⟨"A", ["research"], some "K", some "U"⟩ 300
      [CycleOutcome.raises "boom", CycleOutcome.completes envC8]).1,
   (C9_loop_resilience ⟨"A", ["research"], some "K", some "U"⟩ 300
      [CycleOutcome.raises "boom", CycleOutcome.completes envC8]).2 0
      (CycleOutcome.raises "boom") rfl,
   (C9_loop_resilience ⟨"A", ["research"], some "K", some "U"⟩ 300
      [CycleOutcome.raises "boom", CycleOutcome.completes envC8]).2 1
      (CycleOutcome.completes envC8) rfl⟩
